import Mathlib

/-!
# Verification of the web-blocker IP resolver

Shallow embedding of `src/web-blocker.py` (a Python utility that resolves
IP addresses for domains via public DNS servers and fetches blocklists),
together with theorems checking the natural-language specification against it.

The network is abstracted by explicit oracles:
* a DNS answer oracle `network : String → String → Option (List String)` giving,
  for each (domain, dns_server) pair, either `some rdatas` (the A-record
  addresses of a successful query) or `none` (any exception: timeout, NXDOMAIN,
  unreachable server, malformed response);
* a blocklist download oracle `Except String (List String)` giving either the
  downloaded text as a list of lines (`response.text.splitlines()`) or the
  message of the exception raised by `requests.get` / `raise_for_status`.

Output effects (stdout, stderr, the process exit status) are modelled
explicitly by the `RunResult` structure.
-/

/-- The character class Python's argument-less `str.split()` splits on
(ASCII whitespace, as relevant to blocklist text). -/
def is_space (c : Char) : Bool :=
  c = ' ' || c = '\t' || c = '\n' || c = '\r' || c = '\x0b' || c = '\x0c'

/-- Worker for `py_split`: scan the characters, accumulating the current
token (in reverse); a whitespace character ends the current token, and empty
tokens are dropped. -/
def py_split_go : List Char → List Char → List String
  | [], acc => if acc = [] then [] else [String.mk acc.reverse]
  | c :: cs, acc =>
    if is_space c then
      if acc = [] then py_split_go cs [] else String.mk acc.reverse :: py_split_go cs []
    else py_split_go cs (c :: acc)

/-- Python `line.split()`: split on runs of whitespace, dropping empty tokens. -/
def py_split (s : String) : List String :=
  py_split_go s.data []

/-- Python `s.startswith(pre)`: `pre`'s characters are a prefix of `s`'s. -/
def starts_with (s pre : String) : Bool :=
  pre.data.isPrefixOf s.data

/-- The static `PUBLIC_DNS` table (src/web-blocker.py lines 24–31). -/
def PUBLIC_DNS : List String :=
  ["8.8.8.8", "8.8.4.4",
   "1.1.1.1", "1.0.0.1",
   "9.9.9.9", "149.112.112.112",
   "208.67.222.222", "208.67.220.220",
   "94.140.14.14", "94.140.15.15",
   "4.2.2.1", "4.2.2.2"]

/-- The `common_prefixes` list inside `get_ips` (line 70). -/
def common_prefixes : List String := ["www", "api", "m", "svc"]

/-- The `BLOCKLIST_URLS` table (lines 18–21), as an association list. -/
def BLOCKLIST_URLS : List (String × String) :=
  [("easylist", "https://easylist.to/easylist/easylist.txt"),
   ("peterlowe", "https://pgl.yoyo.org/adservers/serverlist.php?format=hosts")]

/-- Outcome of one probe task: the resolved addresses together with the warning
lines the probe caused to be printed to standard error. -/
structure ProbeOutcome where
  ips : Finset String
  warnings : List String
  deriving DecidableEq

/-- Shallow embedding of `resolve_domain(domain, dns_server)` (lines 33–54).
`answer` is the DNS oracle's response for this (domain, server) pair.  On
success every `rdata.address` is added to the set; on any exception the
`except Exception: pass` branch silently ignores the error, so the result is
the empty set and nothing is printed.  The function is total: it never raises
to its caller. -/
def resolve_domain (domain dns_server : String)
    (answer : Option (List String)) : ProbeOutcome :=
  match answer with
  | some rdatas => { ips := rdatas.toFinset, warnings := [] }
  | none => { ips := ∅, warnings := [] }

/-- The domain-expansion loop at the top of `get_ips` (lines 67–74),
generalised over the prefix list it is run with: for each site, add the site
itself and `p ++ "." ++ site` for every prefix `p`.  The Python code
accumulates into the set `domains_to_check`. -/
def expand (sites : List String) (ps : List String) : Finset String :=
  (sites.flatMap (fun site => site :: ps.map (fun p => p ++ "." ++ site))).toFinset

/-- `domains_to_check` as computed by `get_ips` (lines 67–74): the expansion
with the hard-coded `common_prefixes`. -/
def domains_to_check (sites : List String) : Finset String :=
  expand sites common_prefixes

/-- An enumeration of `domains_to_check` (each domain exactly once), used to
traverse the set when building the probe tasks. -/
def domains_list (sites : List String) : List String :=
  (sites.flatMap (fun site => site :: common_prefixes.map (fun p => p ++ "." ++ site))).dedup

/-- The probe tasks submitted to the executor (lines 78–82): one per
(domain, dns_server) pair of the cross product `domains_to_check × PUBLIC_DNS`. -/
def task_list (sites : List String) : List (String × String) :=
  (domains_list sites).flatMap (fun d => PUBLIC_DNS.map (fun s => (d, s)))

/-- The aggregation loop (lines 83–89): starting from the empty `all_ips`,
union in each task's result set, in the order the tasks are traversed. -/
def merge_fold (network : String → String → Option (List String))
    (l : List (String × String)) : Finset String :=
  l.foldl (fun acc t => acc ∪ (resolve_domain t.1 t.2 (network t.1 t.2)).ips) ∅

/-- The final `all_ips` set computed by `get_ips` (lines 66–89). -/
def all_ips (sites : List String)
    (network : String → String → Option (List String)) : Finset String :=
  merge_fold network (task_list sites)

/-- The fatal diagnostic printed by `get_ips` when nothing resolved (line 92). -/
def no_results_error : String :=
  "Error: No IPs resolved for any site. Check domain names or network connectivity."

/-- Shallow embedding of `get_ips(sites)` (lines 56–95): returns the aggregated
set, or — when it is empty — the terminal failure (`print` to stderr followed
by `sys.exit(1)`, modelled as `Except.error`). -/
def get_ips (sites : List String)
    (network : String → String → Option (List String)) :
    Except String (Finset String) :=
  if all_ips sites network = ∅ then Except.error no_results_error
  else Except.ok (all_ips sites network)

/-- Observable outcome of one CLI invocation: the lines printed to standard
output, the lines printed to standard error, and the process exit status. -/
structure RunResult where
  stdout : List String
  stderr : List String
  exitCode : Nat
  deriving DecidableEq

/-- The `--get-ips` branch of `main` (lines 122–124) composed with `get_ips`:
on success prints `" ".join(sorted(ips))` as a single line and exits 0; when
`get_ips` fails it has already printed its diagnostic to stderr and exited 1.
Python's `sorted` on strings is the ascending lexicographic string order,
which is `≤` on `String`. -/
def run_get_ips (sites : List String)
    (network : String → String → Option (List String)) : RunResult :=
  match get_ips sites network with
  | Except.error msg => { stdout := [], stderr := [msg], exitCode := 1 }
  | Except.ok ips =>
      { stdout := [String.intercalate " " (ips.sort (fun a b => a ≤ b))],
        stderr := [], exitCode := 0 }

/-- The per-line body of the comprehension in `fetch_blocklist` (line 110),
iterated over the already-filtered sentinel lines: `line.split()[1]` succeeds
exactly when the line has a second whitespace-separated token; a missing token
raises `IndexError`, which aborts the whole comprehension (`none`). -/
def extract_hosts : List String → Option (List String)
  | [] => some []
  | line :: rest =>
    match (py_split line).get? 1, extract_hosts rest with
    | some h, some hs => some (h :: hs)
    | _, _ => none

/-- The parse in `fetch_blocklist` (line 110):
`[line.split()[1] for line in text.splitlines() if line.startswith("127.0.0.1")]`,
over the text given as its list of lines; `none` models the comprehension
raising `IndexError`. -/
def parse_blocklist (lines : List String) : Option (List String) :=
  extract_hosts (lines.filter (fun line => starts_with line "127.0.0.1"))

/-- The message of Python's `IndexError` raised by `line.split()[1]`. -/
def index_error : String := "list index out of range"

/-- The diagnostic printed by `fetch_blocklist`'s `except` branch (line 112). -/
def fetch_error (url e : String) : String :=
  "Error fetching blocklist from " ++ url ++ ": " ++ e

/-- Shallow embedding of `fetch_blocklist(url)` (lines 97–113): given the
download oracle, returns the extracted hostname list together with the stderr
lines printed.  Any exception — download failure, bad HTTP status, or the
parse's `IndexError` — is caught by the single `except` branch, which prints
the diagnostic and returns the empty list (no partial results). -/
def fetch_blocklist (url : String) (download : Except String (List String)) :
    List String × List String :=
  match download with
  | Except.error e => ([], [fetch_error url e])
  | Except.ok lines =>
    match parse_blocklist lines with
    | none => ([], [fetch_error url index_error])
    | some hosts => (hosts, [])

/-- The `--list` branch of `main` (lines 125–130) composed with
`fetch_blocklist`: if the returned list is non-empty print the hostnames
joined by newlines (one per line) and exit 0, otherwise `sys.exit(1)`. -/
def run_list (url : String) (download : Except String (List String)) : RunResult :=
  let r := fetch_blocklist url download
  if r.1 ≠ [] then
    { stdout := [String.intercalate "\n" r.1], stderr := r.2, exitCode := 0 }
  else
    { stdout := [], stderr := r.2, exitCode := 1 }

/-- Modelled from the spec: the traffic-capture technique of §4.4 is not part
of `src/web-blocker.py` (only this single script is in the repository); its
private-address exclusion policy is modelled from the spec's words: discard
addresses whose textual form starts with `10.` (10.0.0.0/8), `172.`
(the deliberately broad 172.0.0.0/8 check), or `192.168.` (192.168.0.0/16). -/
def is_private_ip (ip : String) : Bool :=
  starts_with ip "10." || starts_with ip "172." || starts_with ip "192.168."

/-- Modelled from the spec: the traffic-capture private-address filter applied
to the set of observed addresses — keep exactly the non-private ones. -/
def capture_filter (observed : Finset String) : Finset String :=
  observed.filter (fun ip => is_private_ip ip = false)

/-- Deterministic stub network on which every probe succeeds with a fixed
singleton answer (used to instantiate theorems at concrete inputs). -/
def ok_network : String → String → Option (List String) :=
  fun _ _ => some ["93.184.216.34"]

/-- Deterministic stub network on which every probe fails. -/
def fail_network : String → String → Option (List String) :=
  fun _ _ => none

/-! ## General lemmas about the aggregation -/

/-- Membership in a left fold of unions: an element is in the result iff it is
in the initial set or in the image of some list element. -/
theorem mem_foldl_union {α β : Type} [DecidableEq β] (f : α → Finset β)
    (l : List α) (init : Finset β) (x : β) :
    x ∈ l.foldl (fun acc t => acc ∪ f t) init ↔ x ∈ init ∨ ∃ t ∈ l, x ∈ f t := by
  induction l generalizing init with
  | nil => simp
  | cons a l ih => simp [List.foldl_cons, ih, Finset.mem_union, or_assoc]

/-- Membership in the aggregation loop's result. -/
theorem mem_merge_fold (network : String → String → Option (List String))
    (l : List (String × String)) (x : String) :
    x ∈ merge_fold network l ↔
      ∃ t ∈ l, x ∈ (resolve_domain t.1 t.2 (network t.1 t.2)).ips := by
  simp [merge_fold, mem_foldl_union]

/-- The list enumeration of the expanded domains has the same members as the
set `domains_to_check`. -/
theorem mem_domains_list (sites : List String) (d : String) :
    d ∈ domains_list sites ↔ d ∈ domains_to_check sites := by
  simp [domains_list, domains_to_check, expand]

/-- Membership in `all_ips`: exactly the addresses some (domain, server) probe
of the cross product resolves. -/
theorem mem_all_ips (sites : List String)
    (network : String → String → Option (List String)) (x : String) :
    x ∈ all_ips sites network ↔
      ∃ d ∈ domains_to_check sites, ∃ s ∈ PUBLIC_DNS,
        x ∈ (resolve_domain d s (network d s)).ips := by
  rw [all_ips, mem_merge_fold]
  constructor
  · rintro ⟨t, ht, hx⟩
    rw [task_list] at ht
    obtain ⟨da, hda, ht2⟩ := List.mem_flatMap.1 ht
    obtain ⟨sa, hsa, heq⟩ := List.mem_map.1 ht2
    subst heq
    exact ⟨da, (mem_domains_list sites da).1 hda, sa, hsa, hx⟩
  · rintro ⟨d, hd, s, hs, hx⟩
    refine ⟨(d, s), ?_, hx⟩
    rw [task_list]
    exact List.mem_flatMap.2 ⟨d, (mem_domains_list sites d).2 hd,
      List.mem_map.2 ⟨s, hs, rfl⟩⟩

/-- Merging the probe results in any two orders that enumerate the same tasks
gives the same set. -/
theorem merge_fold_perm (network : String → String → Option (List String))
    (l₁ l₂ : List (String × String)) (h : l₁.Perm l₂) :
    merge_fold network l₁ = merge_fold network l₂ := by
  ext x
  rw [mem_merge_fold, mem_merge_fold]
  constructor
  · rintro ⟨t, ht, hx⟩; exact ⟨t, h.mem_iff.1 ht, hx⟩
  · rintro ⟨t, ht, hx⟩; exact ⟨t, h.mem_iff.2 ht, hx⟩

/-- Membership in the generalised domain expansion. -/
theorem mem_expand (sites ps : List String) (d : String) :
    d ∈ expand sites ps ↔
      d ∈ sites ∨ ∃ p ∈ ps, ∃ b ∈ sites, d = p ++ "." ++ b := by
  simp only [expand, List.mem_toFinset, List.mem_flatMap, List.mem_cons, List.mem_map]
  constructor
  · rintro ⟨site, hsite, rfl | ⟨p, hp, rfl⟩⟩
    · exact Or.inl hsite
    · exact Or.inr ⟨p, hp, site, hsite, rfl⟩
  · rintro (hd | ⟨p, hp, b, hb, rfl⟩)
    · exact ⟨d, hd, Or.inl rfl⟩
    · exact ⟨b, hb, Or.inr ⟨p, hp, rfl⟩⟩

/-! ## Lemmas about the blocklist parse -/

/-- When every line of the (already filtered) list has a second token,
the comprehension succeeds and extracts exactly those second tokens, in order. -/
theorem extract_hosts_eq (l : List String)
    (h : ∀ x ∈ l, 2 ≤ (py_split x).length) :
    extract_hosts l = some (l.map (fun x => (py_split x).getD 1 "")) := by
  induction l with
  | nil => rfl
  | cons a t ih =>
    have ha : 2 ≤ (py_split a).length := h a (List.mem_cons_self a t)
    have ih2 := ih (fun x hx => h x (List.mem_cons_of_mem a hx))
    rcases hps : py_split a with _ | ⟨x0, tl⟩
    · rw [hps] at ha; simp at ha
    · rcases tl with _ | ⟨x1, rest⟩
      · rw [hps] at ha; simp at ha
      · simp [extract_hosts, hps, ih2, List.getD]

/-- If some line of the (already filtered) list has no second token, the
comprehension raises `IndexError`: the whole extraction fails. -/
theorem extract_hosts_none (l : List String) (x : String) (hx : x ∈ l)
    (h : (py_split x).length < 2) : extract_hosts l = none := by
  induction l with
  | nil => cases hx
  | cons a t ih =>
    rcases List.mem_cons.1 hx with rfl | hmem
    · have hget : (py_split x).get? 1 = none := List.get?_eq_none.2 (by omega)
      simp only [List.get?_eq_getElem?] at hget
      simp [extract_hosts, hget]
    · rw [extract_hosts, ih hmem]
      cases (py_split a).get? 1 <;> rfl

/-! ## The claims -/

/-- Claim C1: for every non-empty list of base domains, if at least one probe
succeeds, `get_ips` returns a non-empty set equal to the exact union, over
every expanded domain and every configured DNS server, of the per-(domain,
server) result sets produced by `resolve_domain`. -/
theorem get_ips_exact_union (sites : List String)
    (network : String → String → Option (List String))
    (hne : sites ≠ [])
    (hsucc : ∃ d ∈ domains_to_check sites, ∃ s ∈ PUBLIC_DNS,
      (resolve_domain d s (network d s)).ips ≠ ∅) :
    get_ips sites network = Except.ok (all_ips sites network) ∧
    all_ips sites network ≠ ∅ ∧
    ∀ x, x ∈ all_ips sites network ↔
      ∃ d ∈ domains_to_check sites, ∃ s ∈ PUBLIC_DNS,
        x ∈ (resolve_domain d s (network d s)).ips := by
  obtain ⟨d, hd, s, hs, hne0⟩ := hsucc
  obtain ⟨x, hx⟩ := Finset.nonempty_iff_ne_empty.2 hne0
  have hall : all_ips sites network ≠ ∅ := by
    apply Finset.nonempty_iff_ne_empty.1
    exact ⟨x, (mem_all_ips sites network x).2 ⟨d, hd, s, hs, hx⟩⟩
  exact ⟨by rw [get_ips, if_neg hall], hall, fun x => mem_all_ips sites network x⟩

theorem get_ips_exact_union_witness :
    get_ips ["example.com"] ok_network =
      Except.ok (all_ips ["example.com"] ok_network) ∧
    all_ips ["example.com"] ok_network ≠ ∅ :=
  ⟨(get_ips_exact_union ["example.com"] ok_network (by decide)
      ⟨"example.com", by decide, "8.8.8.8", by decide, by decide⟩).1,
   (get_ips_exact_union ["example.com"] ok_network (by decide)
      ⟨"example.com", by decide, "8.8.8.8", by decide, by decide⟩).2.1⟩

/-- Claim C2: if every probe fails for every domain (the aggregated set is
empty after all tasks complete), `get_ips` signals the terminal no-results
failure: the diagnostic goes to standard error, the process exits with a
non-zero status, and no IP output is produced on standard output. -/
theorem get_ips_no_results (sites : List String)
    (network : String → String → Option (List String))
    (hfail : ∀ d ∈ domains_to_check sites, ∀ s ∈ PUBLIC_DNS,
      (resolve_domain d s (network d s)).ips = ∅) :
    get_ips sites network = Except.error no_results_error ∧
    run_get_ips sites network =
      { stdout := [], stderr := [no_results_error], exitCode := 1 } := by
  have hempty : all_ips sites network = ∅ := by
    ext x
    simp only [Finset.not_mem_empty, iff_false]
    rw [mem_all_ips]
    rintro ⟨d, hd, s, hs, hx⟩
    rw [hfail d hd s hs] at hx
    exact Finset.not_mem_empty x hx
  have h1 : get_ips sites network = Except.error no_results_error := by
    rw [get_ips, if_pos hempty]
  exact ⟨h1, by rw [run_get_ips, h1]⟩

theorem get_ips_no_results_witness :
    get_ips ["example.com"] fail_network = Except.error no_results_error ∧
    run_get_ips ["example.com"] fail_network =
      { stdout := [], stderr := [no_results_error], exitCode := 1 } :=
  get_ips_no_results ["example.com"] fail_network (fun d _ s _ => rfl)

/-- Claim C3 counterexample: at the concrete failing probe
(domain "example.com", server "8.8.8.8", the query raising), `resolve_domain`
returns the empty set but prints nothing at all: the claim that a warning
identifying the failed domain and server is recorded is false — the `except`
branch is `pass` ("Silently ignore errors"), and the warning print in
`get_ips` is unreachable because `resolve_domain` never raises. -/
theorem resolve_domain_silent_cex :
    (resolve_domain "example.com" "8.8.8.8" none).ips = ∅ ∧
    ¬ ∃ w, w ∈ (resolve_domain "example.com" "8.8.8.8" none).warnings := by
  constructor
  · rfl
  · rintro ⟨w, hw⟩
    simp [resolve_domain] at hw

/-- Claim C3 as amended: for every domain and DNS server, on any failure of
the DNS query (timeout, NXDOMAIN, server unreachable, malformed response)
`resolve_domain` returns an empty set and never raises to its caller; the
failure is silently ignored — no warning is recorded. -/
theorem resolve_domain_failure_silent (domain dns_server : String) :
    (resolve_domain domain dns_server none).ips = ∅ ∧
    (resolve_domain domain dns_server none).warnings = [] :=
  ⟨rfl, rfl⟩

/-- Claim C4: domain expansion is a pure, deterministic function: for every
list of base domains and every list of non-empty prefixes, the expansion
contains each base domain itself plus, for every prefix `p`, the name
`p ++ "." ++ base`, and nothing else; expanding `["example.com"]` with
`["www", "api"]` gives exactly those three names, and an empty prefix list
leaves the base domains unchanged. -/
theorem expand_spec :
    (∀ (sites ps : List String), (∀ p ∈ ps, p ≠ "") →
      ∀ d, d ∈ expand sites ps ↔
        (d ∈ sites ∨ ∃ p ∈ ps, p ≠ "" ∧ ∃ b ∈ sites, d = p ++ "." ++ b)) ∧
    expand ["example.com"] ["www", "api"] =
      {"example.com", "www.example.com", "api.example.com"} ∧
    expand ["a.com", "b.com"] [] = {"a.com", "b.com"} := by
  refine ⟨?_, by decide, by decide⟩
  intro sites ps hps d
  rw [mem_expand]
  constructor
  · rintro (hd | ⟨p, hp, b, hb, rfl⟩)
    · exact Or.inl hd
    · exact Or.inr ⟨p, hp, hps p hp, b, hb, rfl⟩
  · rintro (hd | ⟨p, hp, _, b, hb, rfl⟩)
    · exact Or.inl hd
    · exact Or.inr ⟨p, hp, b, hb, rfl⟩

theorem expand_spec_witness :
    "www.example.com" ∈ expand ["example.com"] ["www", "api"] :=
  (expand_spec.1 ["example.com"] ["www", "api"] (by decide) "www.example.com").2
    (Or.inr ⟨"www", by decide, by decide, "example.com", by decide, rfl⟩)

/-- Claim C5: for any resolved non-empty IP set, the printed output is a
single space-separated line whose entries are sorted ascending in the string
order (which is lexicographic on the characters, not numeric — e.g.
`"10.0.0.2" < "9.9.9.9"`) and contain no duplicates. -/
theorem run_get_ips_sorted_output :
    (∀ (sites : List String) (network : String → String → Option (List String)),
      all_ips sites network ≠ ∅ →
      run_get_ips sites network =
        { stdout := [String.intercalate " "
            ((all_ips sites network).sort (fun a b => a ≤ b))],
          stderr := [], exitCode := 0 } ∧
      List.Sorted (fun a b => a ≤ b)
        ((all_ips sites network).sort (fun a b => a ≤ b)) ∧
      ((all_ips sites network).sort (fun a b => a ≤ b)).Nodup ∧
      ((all_ips sites network).sort (fun a b => a ≤ b)).toFinset =
        all_ips sites network) ∧
    (∀ a b : String, a < b ↔ a.toList < b.toList) ∧
    ("10.0.0.2" : String) < "9.9.9.9" := by
  refine ⟨?_, fun a b => String.lt_iff_toList_lt,
    String.lt_iff_toList_lt.2 (by decide)⟩
  intro sites network h
  have h1 : get_ips sites network = Except.ok (all_ips sites network) := by
    rw [get_ips, if_neg h]
  exact ⟨by rw [run_get_ips, h1], Finset.sort_sorted _ _, Finset.sort_nodup _ _,
    Finset.sort_toFinset _ _⟩

theorem run_get_ips_sorted_output_witness :
    run_get_ips ["example.com"] ok_network =
      { stdout := [String.intercalate " "
          ((all_ips ["example.com"] ok_network).sort (fun a b => a ≤ b))],
        stderr := [], exitCode := 0 } ∧
    List.Sorted (fun a b => a ≤ b)
      ((all_ips ["example.com"] ok_network).sort (fun a b => a ≤ b)) ∧
    ((all_ips ["example.com"] ok_network).sort (fun a b => a ≤ b)).Nodup ∧
    ((all_ips ["example.com"] ok_network).sort (fun a b => a ≤ b)).toFinset =
      all_ips ["example.com"] ok_network :=
  run_get_ips_sorted_output.1 ["example.com"] ok_network (by decide)

/-- Claim C6: the blocklist parser extracts, from each line that begins with
the sentinel `127.0.0.1`, the second whitespace-separated token, in line
order, and the CLI prints one hostname per line; on the two example lines it
extracts exactly `["ads.example.com"]`. -/
theorem parse_blocklist_spec :
    (∀ lines : List String,
      (∀ l ∈ lines, starts_with l "127.0.0.1" = true → 2 ≤ (py_split l).length) →
      parse_blocklist lines =
        some ((lines.filter (fun l => starts_with l "127.0.0.1")).map
          (fun l => (py_split l).getD 1 ""))) ∧
    fetch_blocklist "https://easylist.to/easylist/easylist.txt"
        (Except.ok ["127.0.0.1 ads.example.com", "# comment"]) =
      (["ads.example.com"], []) ∧
    run_list "https://easylist.to/easylist/easylist.txt"
        (Except.ok ["127.0.0.1 ads.example.com", "# comment"]) =
      { stdout := ["ads.example.com"], stderr := [], exitCode := 0 } ∧
    run_list "https://easylist.to/easylist/easylist.txt"
        (Except.ok ["127.0.0.1 a.com", "# comment", "127.0.0.1 b.com"]) =
      { stdout := ["a.com" ++ "\n" ++ "b.com"], stderr := [], exitCode := 0 } := by
  refine ⟨?_, by decide, by decide, by decide⟩
  intro lines h
  rw [parse_blocklist]
  exact extract_hosts_eq _ (fun x hx => h x (List.mem_filter.1 hx).1
    (by simpa using (List.mem_filter.1 hx).2))

theorem parse_blocklist_spec_witness :
    parse_blocklist ["127.0.0.1 ads.example.com", "# comment"] =
      some ["ads.example.com"] :=
  (parse_blocklist_spec.1 ["127.0.0.1 ads.example.com", "# comment"]
    (by decide)).trans (by decide)

/-- Claim C7: on any blocklist download or HTTP-status-check failure, the
fetch path surfaces the failure immediately: the result is empty (no partial
hostnames), the diagnostic goes to standard error, and the process exits with
a non-zero status. -/
theorem fetch_failure_spec (url e : String) :
    fetch_blocklist url (Except.error e) = ([], [fetch_error url e]) ∧
    run_list url (Except.error e) =
      { stdout := [], stderr := [fetch_error url e], exitCode := 1 } :=
  ⟨rfl, by simp [run_list, fetch_blocklist]⟩

/-- Claim C8: the aggregation merge is set union, hence commutative and
idempotent; merging the probe-task results in any completion order yields the
same set, so two runs with identical inputs against a deterministic stub —
whatever order their tasks complete in — produce identical output sets. -/
theorem aggregation_order_independent :
    (∀ a b : Finset String, a ∪ b = b ∪ a) ∧
    (∀ a : Finset String, a ∪ a = a) ∧
    (∀ (network : String → String → Option (List String))
       (sites : List String) (l₁ l₂ : List (String × String)),
       l₁.Perm (task_list sites) → l₂.Perm (task_list sites) →
       merge_fold network l₁ = merge_fold network l₂) ∧
    (∀ (network : String → String → Option (List String))
       (sites : List String) (l : List (String × String)),
       l.Perm (task_list sites) → merge_fold network l = all_ips sites network) := by
  refine ⟨Finset.union_comm, Finset.union_self, ?_, ?_⟩
  · intro network sites l₁ l₂ h₁ h₂
    exact merge_fold_perm network l₁ l₂ (h₁.trans h₂.symm)
  · intro network sites l h
    exact merge_fold_perm network l (task_list sites) h

theorem aggregation_order_independent_witness :
    merge_fold fail_network (task_list ["facebook.com"]).reverse =
      merge_fold fail_network (task_list ["facebook.com"]) :=
  aggregation_order_independent.2.2.1 fail_network ["facebook.com"]
    (task_list ["facebook.com"]).reverse (task_list ["facebook.com"])
    (List.reverse_perm (task_list ["facebook.com"])) (List.Perm.refl _)

/-- Claim C9: the traffic-capture private-address filter discards every
address starting with `10.`, `172.` (the deliberately broad /8 check) or
`192.168.`, and keeps everything else; of the four example addresses only
`93.184.216.34` survives. -/
theorem capture_filter_spec :
    capture_filter {"10.0.0.5", "192.168.1.1", "172.55.1.1", "93.184.216.34"} =
      {"93.184.216.34"} ∧
    (∀ (observed : Finset String) (ip : String),
      ip ∈ capture_filter observed ↔
        ip ∈ observed ∧
        ¬ (starts_with ip "10." = true ∨ starts_with ip "172." = true ∨
           starts_with ip "192.168." = true)) := by
  refine ⟨by decide, ?_⟩
  intro observed ip
  have hiff : (is_private_ip ip = false) ↔
      ¬ (starts_with ip "10." = true ∨ starts_with ip "172." = true ∨
         starts_with ip "192.168." = true) := by
    rw [is_private_ip]
    cases starts_with ip "10." <;> cases starts_with ip "172." <;>
      cases starts_with ip "192.168." <;> simp
  rw [capture_filter, Finset.mem_filter, hiff]

/-- Claim C10: if the downloaded text has a line that starts with `127.0.0.1`
but has no second whitespace-separated token, `fetch_blocklist` discards all
results — including hostnames from well-formed lines — prints the error, and
the CLI exits non-zero. -/
theorem malformed_blocklist_spec (url : String) (lines : List String)
    (h : ∃ l ∈ lines, starts_with l "127.0.0.1" = true ∧ (py_split l).length < 2) :
    fetch_blocklist url (Except.ok lines) = ([], [fetch_error url index_error]) ∧
    run_list url (Except.ok lines) =
      { stdout := [], stderr := [fetch_error url index_error], exitCode := 1 } := by
  obtain ⟨l, hl, hst, hlen⟩ := h
  have hp : parse_blocklist lines = none := by
    rw [parse_blocklist]
    exact extract_hosts_none _ l (List.mem_filter.2 ⟨hl, by simpa using hst⟩) hlen
  have h1 : fetch_blocklist url (Except.ok lines) =
      ([], [fetch_error url index_error]) := by
    simp [fetch_blocklist, hp]
  exact ⟨h1, by simp [run_list, h1]⟩

theorem malformed_blocklist_spec_witness :
    fetch_blocklist "https://easylist.to/easylist/easylist.txt"
        (Except.ok ["127.0.0.1 ads.example.com", "127.0.0.1"]) =
      ([], [fetch_error "https://easylist.to/easylist/easylist.txt" index_error]) ∧
    run_list "https://easylist.to/easylist/easylist.txt"
        (Except.ok ["127.0.0.1 ads.example.com", "127.0.0.1"]) =
      { stdout := [],
        stderr := [fetch_error "https://easylist.to/easylist/easylist.txt" index_error],
        exitCode := 1 } :=
  malformed_blocklist_spec "https://easylist.to/easylist/easylist.txt"
    ["127.0.0.1 ads.example.com", "127.0.0.1"]
    ⟨"127.0.0.1", by decide, by decide, by decide⟩
